import Mathlib

/-!
Shallow embedding of the moducate-be backend (Firebase Cloud Functions for an
assessment-moderation workflow).  The definitions below are translated from
the JavaScript source:

  * `src/functions/utils/auth.js`   — `verifyUserRole`, `createUserRecord`
  * `src/functions/users/onUpdate.js` — the `onUserUpdate` Firestore trigger
  * `src/unnamed/part_001`          — assessment API (`createAssessment`,
                                      `moderateAssessment`)
  * `src/unnamed/part_002`          — the `onUserCreate` Firestore trigger
  * `src/unnamed/part_003`          — user API (`approveUser`,
                                      `updateUserRole`, `createFirstAdmin`)

Modelling conventions: JavaScript objects become structures; a possibly
missing (`undefined`) field becomes an `Option`; the JavaScript falsiness
test `!x` on a string-valued request field becomes `falsy` (missing or
empty string); Firestore documents that may be absent become
`Option` values; `serverTimestamp()` values are threaded as an explicit
`now : Nat` argument.  Each callable endpoint is split into an `*Inner`
function (the body of the `try` block, returning a typed error) and the
endpoint itself, which applies `normalize` — the model of the endpoint's
`catch` block `throw new HttpsError('internal', error.message)`, which
rewraps every error (including deliberately raised `HttpsError`s) with
kind `internal`, keeping only the message.  Calls to the identity
provider (`setCustomUserClaims`, `auth().createUser`) and document writes
are recorded as an explicit `Event` trace so that ordering properties can
be stated.
-/

namespace Moducate

/-- The role strings accepted by the backend (`validRoles` in the source). -/
def validRoles : List String := ["admin", "moderator", "lecturer"]

/-- The moderation statuses accepted by `moderateAssessment`
(`validStatuses` in the source). -/
def validStatuses : List String := ["approved", "rejected", "pending_changes"]

/-- A custom-claims record attached to an identity-provider user.
`approved = none` models a JavaScript claims object that has no
`approved` key at all (as built by `onUserUpdate` and `updateUserRole`). -/
structure Claims where
  admin : Bool
  moderator : Bool
  lecturer : Bool
  approved : Option Bool
deriving Repr, DecidableEq

/-- A document in the `users` collection.  `customClaims = none` models the
field being absent or `null`. -/
structure UserDoc where
  displayName : String
  email : String
  role : String
  approved : Bool
  active : Bool
  customClaims : Option Claims
  updatedAt : Nat
deriving Repr, DecidableEq

/-- A document in the `assessments` collection. -/
structure AssessmentDoc where
  title : String
  description : String
  content : String
  type : String
  status : String
  lecturerId : String
  moderatorId : Option String
  feedback : Option String
  updatedAt : Nat
deriving Repr, DecidableEq

/-- Error kinds of `functions.https.HttpsError` used by the source, plus
`notFound` for the plain `Error` thrown by `getDocById` and `updateDoc`
when a document is absent. -/
inductive ErrKind where
  | unauthenticated
  | permissionDenied
  | invalidArgument
  | failedPrecondition
  | notFound
  | internal
deriving Repr, DecidableEq

/-- An error as observed by the caller: a kind plus the message text. -/
structure Err where
  kind : ErrKind
  msg : String
deriving Repr, DecidableEq

/-- The endpoint `catch` block: `throw new HttpsError('internal',
error.message)`.  Every error — including an `HttpsError` deliberately
raised inside the `try` — is rewrapped with kind `internal`, keeping only
its message. -/
def normalize {α : Type} : Except Err α → Except Err α
  | Except.ok a => Except.ok a
  | Except.error e => Except.error { kind := ErrKind.internal, msg := e.msg }

/-- The decoded `context.auth.token` custom claims consulted by the user
API (`const ⟨admin : isAdmin⟩ = context.auth.token`). -/
structure AuthToken where
  admin : Bool
deriving Repr, DecidableEq

/-- `context.auth`: the authenticated caller's uid and token claims. -/
structure AuthCtx where
  uid : String
  token : AuthToken
deriving Repr, DecidableEq

/-- JavaScript falsiness of an optional string request field: `!x` is true
when the field is missing or the empty string. -/
def falsy : Option String → Bool
  | none => true
  | some s => s == ""

/-- The `requiredRoles` argument of `verifyUserRole`: the source accepts a
single role string or an array (`Array.isArray(requiredRoles) ?
requiredRoles : [requiredRoles]`). -/
inductive RoleArg where
  | one (role : String)
  | many (roles : List String)
deriving Repr, DecidableEq

/-- Conversion of `requiredRoles` to an array, as in the source. -/
def RoleArg.toList : RoleArg → List String
  | RoleArg.one r => [r]
  | RoleArg.many rs => rs

/-- `verifyUserRole` from `src/functions/utils/auth.js` (lines 14–32).
`lookup` is the result of `getDocById('users', userId)`: `none` models any
lookup failure (in particular a nonexistent user), which the source
catches, returning `false`. -/
def verifyUserRole (lookup : Option UserDoc) (requiredRoles : RoleArg) : Bool :=
  match lookup with
  | none => false
  | some user =>
      let roles := requiredRoles.toList
      let hasRole := roles.contains user.role
      let isApproved := user.approved == true || user.role == "admin"
      hasRole && isApproved

/-- Side effects recorded by the operations, in program order:
`attach c` is `admin.auth().setCustomUserClaims(uid, c)`;
`persistMirror m` is a document write whose patch contains the
`customClaims` field with value `m` (`none` = `null`); `docWrite` is a
document write not touching `customClaims`; `createAuth` is
`admin.auth().createUser(...)`. -/
inductive Event where
  | attach (c : Claims)
  | persistMirror (m : Option Claims)
  | docWrite
  | createAuth
deriving Repr, DecidableEq

/-- Helper for `claimsFirst`: `attached` collects the claims records
attached so far while walking the trace. -/
def claimsFirstFrom (attached : List Claims) : List Event → Prop
  | [] => True
  | Event.attach c :: rest => claimsFirstFrom (c :: attached) rest
  | Event.persistMirror (some c) :: rest => c ∈ attached ∧ claimsFirstFrom attached rest
  | Event.persistMirror none :: rest => claimsFirstFrom attached rest
  | Event.docWrite :: rest => claimsFirstFrom attached rest
  | Event.createAuth :: rest => claimsFirstFrom attached rest

/-- Ordering contract of the Synchronizer: whenever a claims record is
persisted into the document's `customClaims` mirror field, the same
record was attached to the identity provider strictly earlier in the
trace. -/
def claimsFirst (t : List Event) : Prop := claimsFirstFrom [] t

/-- The claims object built by `validRoles.forEach(r => customClaims[r] =
r === role)` in `onUserUpdate` and `updateUserRole`: exactly the three
role keys, no `approved` key. -/
def buildRoleClaims (role : String) : Claims :=
  { admin := "admin" == role
    moderator := "moderator" == role
    lecturer := "lecturer" == role
    approved := none }

/-- Number of role flags set to `true` in a claims record. -/
def trueFlagCount (c : Claims) : Nat :=
  (if c.admin then 1 else 0) + (if c.moderator then 1 else 0) +
    (if c.lecturer then 1 else 0)

/-- The role flags of `c` are exactly the indicator of `role`. -/
def flagsMatch (c : Claims) (role : String) : Prop :=
  (c.admin = true ↔ role = "admin") ∧ (c.moderator = true ↔ role = "moderator") ∧
    (c.lecturer = true ↔ role = "lecturer")

/-- Registration data passed to `createUserRecord` (`userData`). -/
structure RegistrationData where
  displayName : String
  email : String
  role : Option String
deriving Repr, DecidableEq

/-- `createUserRecord` from `src/functions/utils/auth.js` (lines 58–84):
the user document written at registration.  `role || 'lecturer'` defaults
a missing or empty role to `"lecturer"`; only admins are auto-approved. -/
def createUserRecord (userData : RegistrationData) (now : Nat) : UserDoc :=
  let userRole :=
    match userData.role with
    | none => "lecturer"
    | some r => if r == "" then "lecturer" else r
  let isAdmin := userRole == "admin"
  { displayName := userData.displayName
    email := userData.email
    role := userRole
    approved := isAdmin
    active := true
    customClaims := none
    updatedAt := now }

/-- The `onUserCreate` Firestore trigger from `src/unnamed/part_002`:
given the created document's data, returns the emitted event trace and
the document state after the trigger's own update (`approved`,
`customClaims` — a record for admins, `null` otherwise — and
`updatedAt`). -/
def onUserCreate (doc : UserDoc) (now : Nat) : List Event × UserDoc :=
  let isAdmin := doc.role == "admin"
  let approved := isAdmin
  let base := buildRoleClaims doc.role
  if isAdmin then
    let customClaims := { base with approved := some true }
    let newDoc := { doc with approved := approved,
                             customClaims := some customClaims, updatedAt := now }
    ([Event.attach customClaims, Event.persistMirror (some customClaims)], newDoc)
  else
    let newDoc := { doc with approved := approved,
                             customClaims := none, updatedAt := now }
    ([Event.persistMirror none], newDoc)

/-- The `onUserUpdate` Firestore trigger from
`src/functions/users/onUpdate.js`: if the `role` field changed, attach
fresh role claims (no `approved` key) and write only the `customClaims`
mirror and `updatedAt` into the document; otherwise do nothing.  Returns
the emitted events and the resulting document state. -/
def onUserUpdate (before after : UserDoc) (now : Nat) : List Event × UserDoc :=
  if before.role != after.role then
    let customClaims := buildRoleClaims after.role
    let newDoc := { after with customClaims := some customClaims, updatedAt := now }
    ([Event.attach customClaims, Event.persistMirror (some customClaims)], newDoc)
  else
    ([], after)

/-- The slice of backend state a user-API call touches: the target user's
document (`none` = absent) and the claims currently attached to that user
at the identity provider (`none` = never attached). -/
structure SyncState where
  doc : Option UserDoc
  idClaims : Option Claims
deriving Repr, DecidableEq

/-- Request data of `approveUser`; `approved = none` models
`data.approved === undefined`. -/
structure ApproveData where
  userId : Option String
  approved : Option Bool
deriving Repr, DecidableEq

/-- Request data of `updateUserRole`. -/
structure UpdateRoleData where
  userId : Option String
  role : Option String
deriving Repr, DecidableEq

/-- Body of the `try` block of `approveUser` (`src/unnamed/part_003`,
lines 87–145): admin-only; writes `{approved, updatedAt}` into the user
document, and only when `approved` is `true` re-reads the document and
attaches full claims `{admin, moderator, lecturer, approved: true}`
computed from `user.role || 'lecturer'`.  Returns the result message, the
new state, and the emitted events. -/
def approveUserInner (auth : Option AuthCtx) (data : ApproveData)
    (s : SyncState) (now : Nat) : Except Err String × SyncState × List Event :=
  match auth with
  | none =>
      (Except.error { kind := ErrKind.unauthenticated,
                      msg := "You must be logged in to approve users." }, s, [])
  | some ctx =>
      if !ctx.token.admin then
        (Except.error { kind := ErrKind.permissionDenied,
                        msg := "Only admins can approve users." }, s, [])
      else if falsy data.userId || data.approved == none then
        (Except.error { kind := ErrKind.invalidArgument,
                        msg := "User ID and approval status are required." }, s, [])
      else
        match s.doc with
        | none =>
            (Except.error { kind := ErrKind.notFound,
                            msg := "Document not found in users with ID: "
                                     ++ (data.userId.getD "") }, s, [])
        | some doc =>
            let b := data.approved.getD false
            let doc1 := { doc with approved := b, updatedAt := now }
            if b then
              let role := if doc1.role == "" then "lecturer" else doc1.role
              let customClaims : Claims :=
                { admin := role == "admin"
                  moderator := role == "moderator"
                  lecturer := role == "lecturer"
                  approved := some true }
              (Except.ok "User approved successfully",
               { doc := some doc1, idClaims := some customClaims },
               [Event.docWrite, Event.attach customClaims])
            else
              (Except.ok "User rejected successfully",
               { doc := some doc1, idClaims := s.idClaims },
               [Event.docWrite])

/-- The `approveUser` callable endpoint: the inner body with its `catch`
block (`normalize`) applied to the outcome. -/
def approveUser (auth : Option AuthCtx) (data : ApproveData)
    (s : SyncState) (now : Nat) : Except Err String × SyncState × List Event :=
  let r := approveUserInner auth data s now
  (normalize r.1, r.2)

/-- Body of the `try` block of `updateUserRole` (`src/unnamed/part_003`,
lines 150–210): admin-only; validates the role against `validRoles`,
writes `{role, updatedAt}` into the user document (the `approved` field is
not touched), then attaches claims with only the three role keys (no
`approved` key). -/
def updateUserRoleInner (auth : Option AuthCtx) (data : UpdateRoleData)
    (s : SyncState) (now : Nat) : Except Err String × SyncState × List Event :=
  match auth with
  | none =>
      (Except.error { kind := ErrKind.unauthenticated,
                      msg := "You must be logged in to update user roles." }, s, [])
  | some ctx =>
      if !ctx.token.admin then
        (Except.error { kind := ErrKind.permissionDenied,
                        msg := "Only admins can update user roles." }, s, [])
      else if falsy data.userId || falsy data.role then
        (Except.error { kind := ErrKind.invalidArgument,
                        msg := "User ID and role are required." }, s, [])
      else
        let role := data.role.getD ""
        if !validRoles.contains role then
          (Except.error { kind := ErrKind.invalidArgument,
                          msg := "Role must be one of: admin, moderator, lecturer" }, s, [])
        else
          match s.doc with
          | none =>
              (Except.error { kind := ErrKind.notFound,
                              msg := "Document not found in users with ID: "
                                       ++ (data.userId.getD "") }, s, [])
          | some doc =>
              let doc1 := { doc with role := role, updatedAt := now }
              let customClaims := buildRoleClaims role
              (Except.ok ("User role updated to " ++ role ++ " successfully"),
               { doc := some doc1, idClaims := some customClaims },
               [Event.docWrite, Event.attach customClaims])

/-- The `updateUserRole` callable endpoint (inner body plus `catch`). -/
def updateUserRole (auth : Option AuthCtx) (data : UpdateRoleData)
    (s : SyncState) (now : Nat) : Except Err String × SyncState × List Event :=
  let r := updateUserRoleInner auth data s now
  (normalize r.1, r.2)

/-- Request data of `createFirstAdmin`. -/
structure FirstAdminData where
  email : Option String
  password : Option String
  displayName : Option String
deriving Repr, DecidableEq

/-- Body of the `try` block of `createFirstAdmin` (`src/unnamed/part_003`,
lines 215–288): unauthenticated; validates the payload, queries the
`users` collection for documents with `role == "admin"` and raises
`failed-precondition` if any exist; otherwise creates the identity user,
attaches claims `{admin: true, moderator: false, lecturer: false,
approved: true}`, and writes the admin user document (which carries the
claims mirror).  Returns the created document and claims, plus the event
trace. -/
def createFirstAdminInner (data : Option FirstAdminData)
    (users : List UserDoc) (now : Nat) :
    Except Err (UserDoc × Claims) × List Event :=
  match data with
  | none =>
      (Except.error { kind := ErrKind.invalidArgument, msg := "No data provided" }, [])
  | some d =>
      if falsy d.email || falsy d.password || falsy d.displayName then
        (Except.error { kind := ErrKind.invalidArgument,
                        msg := "Email, password, and display name are required." }, [])
      else
        let adminUsers := users.filter (fun u => u.role == "admin")
        if adminUsers.length > 0 then
          (Except.error { kind := ErrKind.failedPrecondition,
                          msg := "An admin user already exists. Cannot create the first admin." }, [])
        else
          let customClaims : Claims :=
            { admin := true, moderator := false, lecturer := false, approved := some true }
          let doc : UserDoc :=
            { displayName := d.displayName.getD ""
              email := d.email.getD ""
              role := "admin"
              approved := true
              active := true
              customClaims := some customClaims
              updatedAt := now }
          (Except.ok (doc, customClaims),
           [Event.createAuth, Event.attach customClaims,
            Event.persistMirror (some customClaims)])

/-- The `createFirstAdmin` callable endpoint (inner body plus `catch`). -/
def createFirstAdmin (data : Option FirstAdminData)
    (users : List UserDoc) (now : Nat) :
    Except Err (UserDoc × Claims) × List Event :=
  let r := createFirstAdminInner data users now
  (normalize r.1, r.2)

/-- Request data of `createAssessment`. -/
structure CreateAssessmentData where
  title : Option String
  description : Option String
  content : Option String
  type : Option String
deriving Repr, DecidableEq

/-- Body of the `try` block of `createAssessment` (`src/unnamed/part_001`,
lines 78–133).  `callerLookup` is the result of the Firestore lookup of
the caller's user document performed inside `verifyUserRole`.  On success
returns the created assessment document. -/
def createAssessmentInner (auth : Option AuthCtx) (callerLookup : Option UserDoc)
    (data : CreateAssessmentData) (now : Nat) : Except Err AssessmentDoc :=
  match auth with
  | none =>
      Except.error { kind := ErrKind.unauthenticated,
                     msg := "You must be logged in to create an assessment." }
  | some ctx =>
      let isLecturer := verifyUserRole callerLookup (RoleArg.many ["lecturer", "admin"])
      if !isLecturer then
        Except.error { kind := ErrKind.permissionDenied,
                       msg := "Only lecturers can create assessments." }
      else if falsy data.title || falsy data.content || falsy data.type then
        Except.error { kind := ErrKind.invalidArgument,
                       msg := "Title, content, and type are required." }
      else
        Except.ok
          { title := data.title.getD ""
            description := data.description.getD ""
            content := data.content.getD ""
            type := data.type.getD ""
            status := "draft"
            lecturerId := ctx.uid
            moderatorId := none
            feedback := none
            updatedAt := now }

/-- The `createAssessment` callable endpoint (inner body plus `catch`). -/
def createAssessment (auth : Option AuthCtx) (callerLookup : Option UserDoc)
    (data : CreateAssessmentData) (now : Nat) : Except Err AssessmentDoc :=
  normalize (createAssessmentInner auth callerLookup data now)

/-- Request data of `moderateAssessment`. -/
structure ModerateData where
  assessmentId : Option String
  status : Option String
  feedback : Option String
deriving Repr, DecidableEq

/-- Body of the `try` block of `moderateAssessment`
(`src/unnamed/part_001`, lines 138–198).  `callerLookup` is the caller's
user document as read by `verifyUserRole`; `store` is the target
assessment document (`none` = absent, in which case `updateDoc` throws).
Writes `{status, moderatorId: caller, updatedAt}` plus `feedback` only
when the supplied feedback is truthy.  Returns the result message and the
assessment document state after the call. -/
def moderateAssessmentInner (auth : Option AuthCtx) (callerLookup : Option UserDoc)
    (data : ModerateData) (store : Option AssessmentDoc) (now : Nat) :
    Except Err String × Option AssessmentDoc :=
  match auth with
  | none =>
      (Except.error { kind := ErrKind.unauthenticated,
                      msg := "You must be logged in to moderate an assessment." }, store)
  | some ctx =>
      let isModerator := verifyUserRole callerLookup (RoleArg.many ["moderator", "admin"])
      if !isModerator then
        (Except.error { kind := ErrKind.permissionDenied,
                        msg := "Only moderators can moderate assessments." }, store)
      else if falsy data.assessmentId || falsy data.status then
        (Except.error { kind := ErrKind.invalidArgument,
                        msg := "Assessment ID and status are required." }, store)
      else
        let status := data.status.getD ""
        if !validStatuses.contains status then
          (Except.error { kind := ErrKind.invalidArgument,
                          msg := "Status must be one of: approved, rejected, pending_changes" }, store)
        else
          match store with
          | none =>
              (Except.error { kind := ErrKind.notFound,
                              msg := "Document not found in assessments with ID: "
                                       ++ (data.assessmentId.getD "") }, store)
          | some doc =>
              let doc1 := { doc with
                              status := status
                              moderatorId := some ctx.uid
                              updatedAt := now
                              feedback := if falsy data.feedback then doc.feedback
                                          else data.feedback }
              (Except.ok ("Assessment " ++ status ++ " successfully"), some doc1)

/-- The `moderateAssessment` callable endpoint (inner body plus `catch`). -/
def moderateAssessment (auth : Option AuthCtx) (callerLookup : Option UserDoc)
    (data : ModerateData) (store : Option AssessmentDoc) (now : Nat) :
    Except Err String × Option AssessmentDoc :=
  let r := moderateAssessmentInner auth callerLookup data store now
  (normalize r.1, r.2)

/-- Erase the timestamp field of a user document (for statements that
compare states "ignoring timestamp fields"). -/
def stripTime (d : UserDoc) : UserDoc := { d with updatedAt := 0 }

/-- Erase timestamp fields across a synchronization state. -/
def stripTimeSync (s : SyncState) : SyncState :=
  { doc := s.doc.map stripTime, idClaims := s.idClaims }

/-! Concrete fixtures used by counterexamples and witnesses. -/

/-- An authenticated caller whose token carries the admin claim. -/
def adminCtx : AuthCtx := { uid := "admin-1", token := AuthToken.mk true }

/-- An authenticated caller without the admin claim (a lecturer). -/
def lecturerCtx : AuthCtx := { uid := "lect-1", token := AuthToken.mk false }

/-- An authenticated caller without the admin claim (a moderator). -/
def modCtx : AuthCtx := { uid := "mod-1", token := AuthToken.mk false }

/-- An unapproved lecturer's user document. -/
def lecturerDoc : UserDoc :=
  { displayName := "Lec"
    email := "lec@example.com"
    role := "lecturer"
    approved := false
    active := true
    customClaims := none
    updatedAt := 0 }

/-- An approved lecturer's user document. -/
def approvedLecturerDoc : UserDoc := { lecturerDoc with approved := true }

/-- An approved moderator's user document. -/
def moderatorDoc : UserDoc :=
  { lecturerDoc with displayName := "Mod", email := "mod@example.com"
                     role := "moderator", approved := true }

/-- An existing admin's user document. -/
def adminDoc : UserDoc :=
  { lecturerDoc with displayName := "Adm", email := "adm@example.com"
                     role := "admin", approved := true }

/-- A valid `createFirstAdmin` request payload. -/
def firstAdminReq : FirstAdminData :=
  { email := some "first@example.com", password := some "pw", displayName := some "First Admin" }

/-- The claims record `createFirstAdmin` attaches. -/
def firstAdminClaims : Claims :=
  { admin := true, moderator := false, lecturer := false, approved := some true }

/-- A valid `createAssessment` request payload. -/
def assessReq : CreateAssessmentData :=
  { title := some "T", description := none, content := some "C", type := some "quiz" }

/-- A draft assessment owned by `lect-1`, carrying earlier feedback. -/
def draftAssessment : AssessmentDoc :=
  { title := "T"
    description := ""
    content := "C"
    type := "quiz"
    status := "draft"
    lecturerId := "lect-1"
    moderatorId := none
    feedback := some "needs work"
    updatedAt := 0 }

/-! Claim theorems. -/

/-- C1 (counterexample): two of the listed operations break the
invariant `role == admin → approved == true`.  First, `updateUserRole`
called by an admin on an unapproved lecturer with new role `"admin"`
produces a document with `role = "admin"` and `approved = false` — and
the `onUserUpdate` trigger that fires on this write leaves
`approved = false` as well.  Second, `approveUser(u, false)` on an
existing admin's document writes `approved = false` while leaving
`role = "admin"` unchanged. -/
theorem admin_invariant_counterexample :
    (updateUserRole (some adminCtx) { userId := some "u1", role := some "admin" }
        { doc := some lecturerDoc, idClaims := none } 5).2.1.doc =
      some { lecturerDoc with role := "admin", updatedAt := 5 } ∧
    ({ lecturerDoc with role := "admin", updatedAt := 5 } : UserDoc).role = "admin" ∧
    ({ lecturerDoc with role := "admin", updatedAt := 5 } : UserDoc).approved = false ∧
    (onUserUpdate lecturerDoc { lecturerDoc with role := "admin", updatedAt := 5 } 6).2.role
      = "admin" ∧
    (onUserUpdate lecturerDoc { lecturerDoc with role := "admin", updatedAt := 5 } 6).2.approved
      = false ∧
    (approveUser (some adminCtx) { userId := some "u2", approved := some false }
        { doc := some adminDoc, idClaims := some firstAdminClaims } 8).2.1.doc =
      some { adminDoc with approved := false, updatedAt := 8 } ∧
    ({ adminDoc with approved := false, updatedAt := 8 } : UserDoc).role = "admin" ∧
    ({ adminDoc with approved := false, updatedAt := 8 } : UserDoc).approved = false :=
  ⟨rfl, rfl, rfl, rfl, rfl, rfl, rfl, rfl⟩

/-- C3 (counterexample): the role-change reaction for a user whose new
role is `"moderator"` attaches the claims record built by
`buildRoleClaims`, which has no `approved` flag at all
(`approved = none`) — refuting the claim that every attached record
contains an `approved` flag. -/
theorem claims_record_counterexample :
    (onUserUpdate lecturerDoc { lecturerDoc with role := "moderator" } 7).1 =
      [Event.attach (buildRoleClaims "moderator"),
       Event.persistMirror (some (buildRoleClaims "moderator"))] ∧
    (buildRoleClaims "moderator").approved = none :=
  ⟨rfl, rfl⟩

/-- C5: when an admin document already exists, `createFirstAdmin`'s inner
body raises `failed-precondition`, but the endpoint's catch-all rewraps it
so the caller receives kind `internal` (with the original message); when
no admin exists, it creates the admin document with `role = "admin"`,
`approved = true`, and the matching claims record
`{admin: true, moderator: false, lecturer: false, approved: true}`. -/
theorem createFirstAdmin_failedPrecondition_normalized :
    (createFirstAdmin (some firstAdminReq) [adminDoc] 3).1 =
      Except.error { kind := ErrKind.internal,
                     msg := "An admin user already exists. Cannot create the first admin." } ∧
    (createFirstAdminInner (some firstAdminReq) [adminDoc] 3).1 =
      Except.error { kind := ErrKind.failedPrecondition,
                     msg := "An admin user already exists. Cannot create the first admin." } ∧
    (createFirstAdmin (some firstAdminReq) [] 3).1 =
      Except.ok
        ({ displayName := "First Admin"
           email := "first@example.com"
           role := "admin"
           approved := true
           active := true
           customClaims := some firstAdminClaims
           updatedAt := 3 }, firstAdminClaims) :=
  ⟨rfl, rfl, rfl⟩

/-- C6: `createAssessment` by an unapproved lecturer raises
`permission-denied` in its inner body (and creates nothing), but the
endpoint's catch-all delivers kind `internal` to the caller; by an
approved lecturer with non-empty title, content and type it creates a
document with `status = "draft"`, `moderatorId = null`,
`feedback = null`, and `lecturerId` equal to the caller's uid. -/
theorem createAssessment_permissionDenied_normalized :
    createAssessment (some lecturerCtx) (some lecturerDoc) assessReq 4 =
      Except.error { kind := ErrKind.internal,
                     msg := "Only lecturers can create assessments." } ∧
    createAssessmentInner (some lecturerCtx) (some lecturerDoc) assessReq 4 =
      Except.error { kind := ErrKind.permissionDenied,
                     msg := "Only lecturers can create assessments." } ∧
    createAssessment (some lecturerCtx) (some approvedLecturerDoc) assessReq 4 =
      Except.ok
        { title := "T"
          description := ""
          content := "C"
          type := "quiz"
          status := "draft"
          lecturerId := "lect-1"
          moderatorId := none
          feedback := none
          updatedAt := 4 } :=
  ⟨rfl, rfl, rfl⟩

/-- C7: `moderateAssessment` with status `"shipped"` raises
`invalid-argument` in its inner body and leaves the assessment document
unchanged, but the endpoint's catch-all delivers kind `internal`; with
status `"approved"` called by an approved moderator on an existing
assessment it writes that status, sets `moderatorId` to the caller's uid,
updates `updatedAt`, and leaves the previously stored feedback
untouched when no feedback is supplied. -/
theorem moderateAssessment_shipped_normalized :
    moderateAssessment (some modCtx) (some moderatorDoc)
        { assessmentId := some "a1", status := some "shipped", feedback := none }
        (some draftAssessment) 9 =
      (Except.error { kind := ErrKind.internal,
                      msg := "Status must be one of: approved, rejected, pending_changes" },
       some draftAssessment) ∧
    (moderateAssessmentInner (some modCtx) (some moderatorDoc)
        { assessmentId := some "a1", status := some "shipped", feedback := none }
        (some draftAssessment) 9).1 =
      Except.error { kind := ErrKind.invalidArgument,
                     msg := "Status must be one of: approved, rejected, pending_changes" } ∧
    moderateAssessment (some modCtx) (some moderatorDoc)
        { assessmentId := some "a1", status := some "approved", feedback := none }
        (some draftAssessment) 9 =
      (Except.ok "Assessment approved successfully",
       some { draftAssessment with status := "approved", moderatorId := some "mod-1",
                                   updatedAt := 9 }) :=
  ⟨rfl, rfl, rfl⟩

/-- C2: for every lookup result and non-empty list of required role
names, `verifyUserRole` returns `true` iff the stored user's role is a
member of the required roles and the user is approved or an admin; and
whenever the lookup fails (`none`), it returns `false` instead of
raising an error. -/
theorem verifyUserRole_spec (lookup : Option UserDoc) (roles : List String)
    (hne : roles ≠ []) :
    (verifyUserRole lookup (RoleArg.many roles) = true ↔
      ∃ u, lookup = some u ∧ u.role ∈ roles ∧ (u.approved = true ∨ u.role = "admin")) ∧
    (lookup = none → verifyUserRole lookup (RoleArg.many roles) = false) := by
  constructor
  · cases lookup with
    | none => simp [verifyUserRole]
    | some u =>
        simp [verifyUserRole, RoleArg.toList, List.contains, List.elem_eq_mem]
  · intro h
    subst h
    rfl

/-- C2 witness: an approved moderator satisfies the requirement
`{moderator, admin}`. -/
theorem verifyUserRole_spec_witness :
    verifyUserRole (some moderatorDoc) (RoleArg.many ["moderator", "admin"]) = true :=
  ((verifyUserRole_spec (some moderatorDoc) ["moderator", "admin"] (by decide)).1).mpr
    ⟨moderatorDoc, rfl, by decide, Or.inl rfl⟩

/-- C9: when the user-update reaction fires on a role change, the
document it writes agrees with the updated document on every field except
`customClaims` and `updatedAt` (in particular the `role` field is
unchanged), and re-running the reaction on the state produced by that
write emits no events and performs no further write. -/
theorem onUserUpdate_frame_no_retrigger (before after : UserDoc) (now now2 : Nat)
    (h : ¬ before.role = after.role) :
    (onUserUpdate before after now).2.displayName = after.displayName ∧
    (onUserUpdate before after now).2.email = after.email ∧
    (onUserUpdate before after now).2.role = after.role ∧
    (onUserUpdate before after now).2.approved = after.approved ∧
    (onUserUpdate before after now).2.active = after.active ∧
    (onUserUpdate before after now).2.customClaims = some (buildRoleClaims after.role) ∧
    (onUserUpdate before after now).2.updatedAt = now ∧
    onUserUpdate after (onUserUpdate before after now).2 now2 =
      ([], (onUserUpdate before after now).2) := by
  simp [onUserUpdate, h]

/-- C9 witness: a lecturer-to-moderator role change at concrete inputs. -/
theorem onUserUpdate_frame_no_retrigger_witness :
    (onUserUpdate lecturerDoc moderatorDoc 3).2.displayName = moderatorDoc.displayName ∧
    (onUserUpdate lecturerDoc moderatorDoc 3).2.email = moderatorDoc.email ∧
    (onUserUpdate lecturerDoc moderatorDoc 3).2.role = moderatorDoc.role ∧
    (onUserUpdate lecturerDoc moderatorDoc 3).2.approved = moderatorDoc.approved ∧
    (onUserUpdate lecturerDoc moderatorDoc 3).2.active = moderatorDoc.active ∧
    (onUserUpdate lecturerDoc moderatorDoc 3).2.customClaims
      = some (buildRoleClaims moderatorDoc.role) ∧
    (onUserUpdate lecturerDoc moderatorDoc 3).2.updatedAt = 3 ∧
    onUserUpdate moderatorDoc (onUserUpdate lecturerDoc moderatorDoc 3).2 4 =
      ([], (onUserUpdate lecturerDoc moderatorDoc 3).2) :=
  onUserUpdate_frame_no_retrigger lecturerDoc moderatorDoc 3 4 (by decide)

/-- C10: `approveUser(u, false)` by an admin on an existing user sets the
document's `approved` field to `false` (and the timestamp) but leaves the
identity-provider claims record entirely unchanged, whatever was attached
before. -/
theorem approveUser_false_claims_frame (ctx : AuthCtx) (hadm : ctx.token.admin = true)
    (uid : String) (hu : ¬ uid = "") (d : UserDoc) (ic : Option Claims) (now : Nat) :
    (approveUser (some ctx) { userId := some uid, approved := some false }
        { doc := some d, idClaims := ic } now).2.1 =
      { doc := some { d with approved := false, updatedAt := now }, idClaims := ic } := by
  simp [approveUser, approveUserInner, falsy, hadm, hu]

/-- C10 witness: revoking approval of an admin whose claims carry
`approved: true` leaves those claims attached. -/
theorem approveUser_false_claims_frame_witness :
    (approveUser (some adminCtx) { userId := some "u1", approved := some false }
        { doc := some adminDoc, idClaims := some firstAdminClaims } 8).2.1 =
      { doc := some { adminDoc with approved := false, updatedAt := 8 },
        idClaims := some firstAdminClaims } :=
  approveUser_false_claims_frame adminCtx rfl "u1" (by decide) adminDoc
    (some firstAdminClaims) 8

/-- C4: in every operation that synchronizes role/approval state — the
role-change reaction, `approveUser`, the user-create reaction, and
`createFirstAdmin` — every document write that persists a claims record
into the `customClaims` mirror field is strictly preceded in the event
trace by the attachment of that same record to the identity provider. -/
theorem claims_attached_before_mirror :
    (∀ before after now, claimsFirst (onUserUpdate before after now).1) ∧
    (∀ auth data s now, claimsFirst (approveUserInner auth data s now).2.2) ∧
    (∀ doc now, claimsFirst (onUserCreate doc now).1) ∧
    (∀ data users now, claimsFirst (createFirstAdminInner data users now).2) := by
  refine ⟨?_, ?_, ?_, ?_⟩
  · intro before after now
    by_cases h : before.role = after.role <;>
      simp [onUserUpdate, h, claimsFirst, claimsFirstFrom]
  · intro auth data s now
    cases auth with
    | none => simp [approveUserInner, claimsFirst, claimsFirstFrom]
    | some ctx =>
        obtain ⟨duid, dapp⟩ := data
        by_cases h1 : ctx.token.admin <;>
          cases dapp with
          | none => simp [approveUserInner, h1, claimsFirst, claimsFirstFrom]
          | some b =>
              cases b <;> cases hs : s.doc <;>
                by_cases h2 : falsy duid <;>
                  simp [approveUserInner, h1, h2, hs, claimsFirst, claimsFirstFrom]
  · intro doc now
    by_cases h : doc.role == "admin" <;>
      simp [onUserCreate, h, claimsFirst, claimsFirstFrom]
  · intro data users now
    cases data with
    | none => simp [createFirstAdminInner, claimsFirst, claimsFirstFrom]
    | some d =>
        simp only [createFirstAdminInner]
        split <;> try simp [claimsFirst, claimsFirstFrom]
        split <;> simp [claimsFirst, claimsFirstFrom]

/-- C8: calling `approveUser(u, true)` twice in succession on the same
existing user yields the same final user-document state (ignoring
timestamp fields) and the same attached claims record as calling it
once. -/
theorem approveUser_true_idempotent (ctx : AuthCtx) (hadm : ctx.token.admin = true)
    (uid : String) (hu : ¬ uid = "") (d : UserDoc) (ic : Option Claims) (n1 n2 : Nat) :
    stripTimeSync (approveUser (some ctx) { userId := some uid, approved := some true }
        ((approveUser (some ctx) { userId := some uid, approved := some true }
            { doc := some d, idClaims := ic } n1).2.1) n2).2.1 =
      stripTimeSync (approveUser (some ctx) { userId := some uid, approved := some true }
          { doc := some d, idClaims := ic } n1).2.1 := by
  simp [approveUser, approveUserInner, falsy, hadm, hu, stripTimeSync, stripTime]

/-- C8 witness: approving the unapproved lecturer twice at concrete
timestamps. -/
theorem approveUser_true_idempotent_witness :
    stripTimeSync (approveUser (some adminCtx) { userId := some "u1", approved := some true }
        ((approveUser (some adminCtx) { userId := some "u1", approved := some true }
            { doc := some lecturerDoc, idClaims := none } 1).2.1) 2).2.1 =
      stripTimeSync (approveUser (some adminCtx) { userId := some "u1", approved := some true }
          { doc := some lecturerDoc, idClaims := none } 1).2.1 :=
  approveUser_true_idempotent adminCtx rfl "u1" (by decide) lecturerDoc none 1 2

/-- Role claims built for a valid role have exactly one true flag. -/
theorem trueFlagCount_buildRoleClaims (role : String) (h : role ∈ validRoles) :
    trueFlagCount (buildRoleClaims role) = 1 := by
  simp only [validRoles, List.mem_cons, List.not_mem_nil, or_false] at h
  rcases h with h | h | h <;> subst h <;> decide

/-- The full claims record `approveUser` builds for a valid role has
exactly one true flag. -/
theorem trueFlagCount_approveClaims (role : String) (h : role ∈ validRoles) :
    trueFlagCount
      { admin := role == "admin", moderator := role == "moderator"
        lecturer := role == "lecturer", approved := some true } = 1 := by
  simp only [validRoles, List.mem_cons, List.not_mem_nil, or_false] at h
  rcases h with h | h | h <;> subst h <;> decide

/-- C1 (amended): the invariant `role == "admin" → approved == true`
holds after user registration (`createUserRecord`), after the
user-create reaction, after the first-admin bootstrap, and after a
successful `approveUser(u, true)` (which makes `approved = true`
outright); but `updateUserRole` never touches the `approved` field while
changing `role`, and a successful `approveUser(u, false)` sets
`approved = false` while leaving `role` unchanged, so promoting an
unapproved user to admin, or revoking approval of an admin, each leave
the invariant violated. -/
theorem admin_implies_approved_amended :
    (∀ userData now, (createUserRecord userData now).role = "admin" →
        (createUserRecord userData now).approved = true) ∧
    (∀ doc now, (onUserCreate doc now).2.role = "admin" →
        (onUserCreate doc now).2.approved = true) ∧
    (∀ data users now r evts,
        createFirstAdminInner data users now = (Except.ok r, evts) →
        r.1.role = "admin" ∧ r.1.approved = true) ∧
    (∀ auth uid s now d',
        (approveUserInner auth { userId := uid, approved := some true } s now).1.isOk
          = true →
        (approveUserInner auth { userId := uid, approved := some true } s now).2.1.doc
          = some d' →
        d'.approved = true) ∧
    (∀ auth data s now d d', s.doc = some d →
        (updateUserRoleInner auth data s now).2.1.doc = some d' →
        d'.approved = d.approved) ∧
    (∀ auth uid s now d d', s.doc = some d →
        (approveUserInner auth { userId := uid, approved := some false } s now).1.isOk
          = true →
        (approveUserInner auth { userId := uid, approved := some false } s now).2.1.doc
          = some d' →
        d'.approved = false ∧ d'.role = d.role) := by
  refine ⟨?_, ?_, ?_, ?_, ?_, ?_⟩
  · intro userData now h
    simp only [createUserRecord] at h ⊢
    rw [h]
    rfl
  · intro doc now h
    by_cases ha : doc.role == "admin" <;>
      simp [onUserCreate, ha] at h ⊢
    exact absurd h (by simpa using ha)
  · intro data users now r evts h
    cases data with
    | none => simp [createFirstAdminInner] at h
    | some d =>
        simp only [createFirstAdminInner] at h
        split at h
        · simp at h
        · split at h
          · simp at h
          · simp only [Prod.mk.injEq, Except.ok.injEq] at h
            rw [← h.1]
            exact ⟨rfl, rfl⟩
  · intro auth uid s now d' hok hdoc
    cases auth with
    | none => simp [approveUserInner, Except.isOk, Except.toBool] at hok
    | some ctx =>
        by_cases h1 : ctx.token.admin
        · by_cases h2 : falsy uid
          · simp [approveUserInner, Except.isOk, Except.toBool, h1, h2] at hok
          · cases hs : s.doc with
            | none => simp [approveUserInner, Except.isOk, Except.toBool, h1, h2, hs] at hok
            | some doc =>
                simp [approveUserInner, h1, h2, hs] at hdoc
                rw [← hdoc]
        · simp [approveUserInner, Except.isOk, Except.toBool, h1] at hok
  · intro auth data s now d d' hd h
    cases auth with
    | none =>
        injection hd.symm.trans h with he
        rw [he]
    | some ctx =>
        simp only [updateUserRoleInner] at h
        split at h
        · injection hd.symm.trans h with he
          rw [he]
        · split at h
          · injection hd.symm.trans h with he
            rw [he]
          · split at h
            · injection hd.symm.trans h with he
              rw [he]
            · split at h
              · injection hd.symm.trans h with he
                rw [he]
              · rename_i doc hdoc
                rw [hd] at hdoc
                injection hdoc with hdoc
                have h2 : some ({ doc with role := data.role.getD "",
                                            updatedAt := now } : UserDoc) = some d' := h
                injection h2 with h2
                rw [← h2, ← hdoc]
  · intro auth uid s now d d' hd hok hdoc
    cases auth with
    | none => simp [approveUserInner, Except.isOk, Except.toBool] at hok
    | some ctx =>
        by_cases h1 : ctx.token.admin
        · by_cases h2 : falsy uid
          · simp [approveUserInner, Except.isOk, Except.toBool, h1, h2] at hok
          · simp [approveUserInner, h1, h2, hd] at hdoc
            rw [← hdoc]
            exact ⟨rfl, rfl⟩
        · simp [approveUserInner, Except.isOk, Except.toBool, h1] at hok

/-- C1 (amended) witness: registration with role `"admin"` yields an
approved document; `updateUserRole` to `"moderator"` on the unapproved
lecturer leaves `approved` unchanged; a successful `approveUser(u, true)`
yields `approved = true`; and a successful `approveUser(u, false)` on the
admin document yields `approved = false` with the role unchanged. -/
theorem admin_implies_approved_amended_witness :
    (createUserRecord { displayName := "N", email := "e", role := some "admin" } 1).approved
      = true ∧
    ({ lecturerDoc with role := "moderator", updatedAt := 5 } : UserDoc).approved
      = lecturerDoc.approved ∧
    ({ lecturerDoc with approved := true, updatedAt := 1 } : UserDoc).approved = true ∧
    ({ adminDoc with approved := false, updatedAt := 8 } : UserDoc).approved = false ∧
    ({ adminDoc with approved := false, updatedAt := 8 } : UserDoc).role = adminDoc.role :=
  ⟨admin_implies_approved_amended.1
      { displayName := "N", email := "e", role := some "admin" } 1 (by rfl),
   admin_implies_approved_amended.2.2.2.2.1 (some adminCtx)
      { userId := some "u1", role := some "moderator" }
      { doc := some lecturerDoc, idClaims := none } 5 lecturerDoc
      { lecturerDoc with role := "moderator", updatedAt := 5 } rfl (by rfl),
   admin_implies_approved_amended.2.2.2.1 (some adminCtx) (some "u1")
      { doc := some lecturerDoc, idClaims := none } 1
      { lecturerDoc with approved := true, updatedAt := 1 } (by rfl) (by rfl),
   (admin_implies_approved_amended.2.2.2.2.2 (some adminCtx) (some "u2")
      { doc := some adminDoc, idClaims := some firstAdminClaims } 8 adminDoc
      { adminDoc with approved := false, updatedAt := 8 } rfl (by rfl) (by rfl)).1,
   (admin_implies_approved_amended.2.2.2.2.2 (some adminCtx) (some "u2")
      { doc := some adminDoc, idClaims := some firstAdminClaims } 8 adminDoc
      { adminDoc with approved := false, updatedAt := 8 } rfl (by rfl) (by rfl)).2⟩

/-- C3 (amended): every claims-attaching path sets exactly one true role
flag matching the user's new role (for the roles the path admits), but
only `approveUser(·, true)` and the admin-creation paths include an
`approved` flag — which is then `true`, and on those paths the new role
is admin or the document's approval flag has just been set to `true` —
while the role-change reaction and `updateUserRole` attach a record with
no `approved` flag at all. -/
theorem claims_record_amended :
    (∀ before after now c, Event.attach c ∈ (onUserUpdate before after now).1 →
        c = buildRoleClaims after.role ∧ c.approved = none ∧
          flagsMatch c after.role ∧
          (after.role ∈ validRoles → trueFlagCount c = 1)) ∧
    (∀ auth data s now c, Event.attach c ∈ (updateUserRoleInner auth data s now).2.2 →
        c = buildRoleClaims (data.role.getD "") ∧ c.approved = none ∧
          trueFlagCount c = 1) ∧
    (∀ auth data s now d c, s.doc = some d →
        Event.attach c ∈ (approveUserInner auth data s now).2.2 →
        c.approved = some true ∧
          flagsMatch c (if d.role == "" then "lecturer" else d.role) ∧
          (d.role ∈ validRoles → trueFlagCount c = 1)) ∧
    (∀ doc now c, Event.attach c ∈ (onUserCreate doc now).1 →
        doc.role = "admin" ∧
          c = { admin := true, moderator := false, lecturer := false,
                approved := some true }) ∧
    (∀ data users now c, Event.attach c ∈ (createFirstAdminInner data users now).2 →
        c = { admin := true, moderator := false, lecturer := false,
              approved := some true }) := by
  refine ⟨?_, ?_, ?_, ?_, ?_⟩
  · intro before after now c hm
    by_cases h : before.role = after.role
    · simp [onUserUpdate, h] at hm
    · simp [onUserUpdate, h] at hm
      subst hm
      refine ⟨rfl, rfl, ?_, fun hmem => trueFlagCount_buildRoleClaims after.role hmem⟩
      simp only [flagsMatch, buildRoleClaims, beq_iff_eq]
      exact ⟨eq_comm, eq_comm, eq_comm⟩
  · intro auth data s now c hm
    cases auth with
    | none => simp [updateUserRoleInner] at hm
    | some ctx =>
        by_cases h1 : ctx.token.admin
        · by_cases h2 : (falsy data.userId || falsy data.role) = true
          · simp [updateUserRoleInner, h1, h2] at hm
          · by_cases hmem : data.role.getD "" ∈ validRoles
            · cases hs : s.doc with
              | none => simp [updateUserRoleInner, h1, h2, hs, hmem] at hm
              | some doc =>
                  simp [updateUserRoleInner, h1, h2, hs, hmem] at hm
                  subst hm
                  exact ⟨rfl, rfl, trueFlagCount_buildRoleClaims (data.role.getD "") hmem⟩
            · simp [updateUserRoleInner, h1, h2, hmem] at hm
        · simp [updateUserRoleInner, h1] at hm
  · intro auth data s now d c hd hm
    cases auth with
    | none => simp [approveUserInner] at hm
    | some ctx =>
        obtain ⟨duid, dapp⟩ := data
        by_cases h1 : ctx.token.admin
        · cases dapp with
          | none => simp [approveUserInner, h1] at hm
          | some b =>
              cases b with
              | false =>
                  by_cases h2 : falsy duid <;>
                    simp [approveUserInner, h1, h2, hd] at hm
              | true =>
                  by_cases h2 : falsy duid
                  · simp [approveUserInner, h1, h2, hd] at hm
                  · simp [approveUserInner, h1, h2, hd] at hm
                    subst hm
                    refine ⟨rfl, ?_, ?_⟩
                    · simp [flagsMatch]
                    · intro hmem
                      have hne2 : ¬ d.role = "" := by
                        simp only [validRoles, List.mem_cons, List.not_mem_nil,
                                   or_false] at hmem
                        rcases hmem with h | h | h <;> rw [h] <;> decide
                      simp only [if_neg hne2]
                      exact trueFlagCount_approveClaims d.role hmem
        · simp [approveUserInner, h1] at hm
  · intro doc now c hm
    by_cases ha : doc.role == "admin"
    · have hr : doc.role = "admin" := by simpa using ha
      simp [onUserCreate, ha] at hm
      subst hm
      refine ⟨hr, ?_⟩
      rw [hr]
      decide
    · simp [onUserCreate, ha] at hm
  · intro data users now c hm
    cases data with
    | none => simp [createFirstAdminInner] at hm
    | some d =>
        simp only [createFirstAdminInner] at hm
        split at hm
        · simp at hm
        · split at hm
          · simp at hm
          · simp at hm
            exact hm

/-- C3 (amended) witness: the role-change reaction for a lecturer
becoming a moderator attaches `buildRoleClaims "moderator"`, which has no
`approved` flag and exactly one true role flag. -/
theorem claims_record_amended_witness :
    buildRoleClaims "moderator" =
        buildRoleClaims ({ lecturerDoc with role := "moderator" } : UserDoc).role ∧
    (buildRoleClaims "moderator").approved = none ∧
    flagsMatch (buildRoleClaims "moderator")
        ({ lecturerDoc with role := "moderator" } : UserDoc).role ∧
    (({ lecturerDoc with role := "moderator" } : UserDoc).role ∈ validRoles →
        trueFlagCount (buildRoleClaims "moderator") = 1) :=
  claims_record_amended.1 lecturerDoc { lecturerDoc with role := "moderator" } 7
    (buildRoleClaims "moderator") (by decide)

end Moducate
